import Mathlib

/-!
Shallow embedding of the purser Trezor hardware-wallet class
(`src/trezor/class.js`) together with the validators, normalizers and
payload helpers it relies on.  The class source is embedded faithfully;
the helper modules (validators, normalizers, `padLeft`, payload
defaults) are not part of the provided sources and are modelled from
the specification, each such definition carrying a doc comment that
says so.
-/

/- ## JavaScript-style errors -/

/-- Errors observable from the embedded operations: validator failures
(`InputValidationError`), runtime `TypeError`s (reading a property of
`undefined`), and transport rejections carrying the rejection message. -/
inductive JsError where
  | inputValidation (message : String)
  | typeError (message : String)
  | transport (message : String)
deriving DecidableEq, Repr, Inhabited

/-- The `message` property of a JavaScript error, as compared by the
catch blocks of `open()` and `signTransaction`. -/
def JsError.message : JsError → String
  | .inputValidation m => m
  | .typeError m => m
  | .transport m => m

/- ## Spec-modelled constants and validators -/

/-- Modelled from the spec: the platform-safe integer bound
(`Number.MAX_SAFE_INTEGER`, `2^53 - 1`); the validators module is not in
the provided sources. -/
def SAFE_INTEGER_MAX : Int := 9007199254740991

/-- Message carried by validator failures (the messages module is not in
the provided sources; its exact text is immaterial, only that it differs
from the cancellation sentinels). -/
def INVALID_SAFE_INTEGER_MESSAGE : String := "The value passed is not a safe integer"

/-- Message carried by derivation-path validator failures. -/
def INVALID_PATH_MESSAGE : String := "The derivation path is not in the correct format"

/-- Message of the runtime TypeError raised when reading a property of
`undefined` (as happens for an out-of-bounds array element). -/
def TYPE_ERROR_UNDEFINED_MESSAGE : String := "Cannot read property of undefined"

/-- Modelled from the spec: `safeIntegerValidator` (the validators module
is not in the provided sources) fails unless the value is an integer,
non-negative, and within the platform-safe integer range. -/
def safeIntegerValidator (n : Int) : Except JsError Unit :=
  if 0 ≤ n ∧ n ≤ SAFE_INTEGER_MAX then Except.ok ()
  else Except.error (JsError.inputValidation INVALID_SAFE_INTEGER_MESSAGE)

/-- The hardened marker character of a derivation-path component (an
apostrophe, character code 39). -/
def HARDENED_MARK : Char := Char.ofNat 39

/-- Splitting of a character list at every slash, the `/`-separation of
path components. -/
def splitOnSlashAux : List Char → List Char → List (List Char)
  | [], acc => [acc.reverse]
  | c :: rest, acc =>
    if c = '/' then acc.reverse :: splitOnSlashAux rest []
    else splitOnSlashAux rest (c :: acc)

/-- The `/`-separated components of a path string. -/
def splitOnSlash (l : List Char) : List (List Char) :=
  splitOnSlashAux l []

/-- A single derivation-path component: decimal digits optionally
followed by the hardened marker. -/
def isPathComponent (l : List Char) : Bool :=
  let core := if l.getLast? = some HARDENED_MARK then l.dropLast else l
  !core.isEmpty && core.all Char.isDigit

/-- Modelled from the spec: the derivation-path grammar accepted by
`derivationPathValidator` (the validators module is not in the provided
sources) — an optional `m/` root followed by `/`-separated integer
components, each with an optional hardened marker. -/
def derivationPathValid (path : String) : Bool :=
  match splitOnSlash path.data with
  | [] => false
  | first :: rest =>
    if first = ['m'] then !rest.isEmpty && rest.all isPathComponent
    else (first :: rest).all isPathComponent

/-- Modelled from the spec: `derivationPathNormalizer` canonicalizes a
path into the grammar consumed by the validator and the array-conversion
step; on already-canonical paths (the only ones produced here) it is the
identity. -/
def derivationPathNormalizer (path : String) : String := path

/-- The decimal value of a digit component. -/
def digitsToNatAux : List Char → Nat → Nat
  | [], acc => acc
  | c :: rest, acc => digitsToNatAux rest (acc * 10 + (c.toNat - 48))

/-- The decimal value of a digit component, most significant digit
first. -/
def digitsToNat (l : List Char) : Nat :=
  digitsToNatAux l 0

/-- Modelled from the spec: the integer-array form of a derivation path
(`bip32-path` interconversion) — each component becomes its integer
value, hardened components offset by `2^31`. -/
def toPathArray (path : String) : List Nat :=
  let parts := splitOnSlash path.data
  let comps := if parts.headD [] = ['m'] then parts.tail else parts
  comps.map (fun l =>
    if l.getLast? = some HARDENED_MARK
    then digitsToNat l.dropLast + 2 ^ 31
    else digitsToNat l)

/-- Modelled from the spec: `derivationPathSerializer` builds the
canonical path string from structured components, in the shape
`m/44h/{coinType}h/0h/0` with an optional trailing `/{addressIndex}`
(here `h` stands for the hardened marker). -/
def derivationPathSerializer (coinType : Nat) (addressIndex : Option Nat) : String :=
  let mark := String.mk [HARDENED_MARK]
  "m/44" ++ mark ++ "/" ++ toString coinType ++ mark ++ "/0" ++ mark ++ "/0" ++
    (match addressIndex with
     | some i => "/" ++ toString i
     | none => "")

/-- Modelled from the spec: the two well-known cancellation sentinels
(`STD_ERRORS`, the defaults module is not in the provided sources); only
which operations compare against them matters, not their exact text. -/
def CANCEL_ACC_EXPORT : String := "Export cancelled"

/-- Modelled from the spec: the sentinel for a user-cancelled
transaction signature. -/
def CANCEL_TX_SIGN : String := "Action cancelled by user"

/-- Modelled from the spec: the mainnet coin type used in derivation
paths. -/
def COIN_MAINNET : Nat := 60

/-- Modelled from the spec: the testnet coin type (the class source
comments that on a testnet the coin type id is set to `1`). -/
def COIN_TESTNET : Nat := 1

/-- Modelled from the spec: the designated main-network name a
provider's `name` is compared against. -/
def MAIN_NETWORK : String := "homestead"

/-- Modelled from the spec: `padLeft` pads a string with zeros on the
left up to the requested length (the utils module is not in the provided
sources). -/
def padLeft (targetLength : Nat) (value : String) : String :=
  String.mk (List.replicate (targetLength - value.length) '0' ++ value.data)

/- ## Injected capabilities -/

/-- The key-derivation capability injected into the constructor: `derive`
models `hdkey`'s child derivation from the root public key, chain code
and a path string, and `toAddress` models
`SigningKey.publicKeyToAddress` on the derived public key.  Both are
external collaborators of the repository. -/
structure KeyDerivation where
  derive : String → String → String → String
  toAddress : String → String

/- ## Data model -/

/-- One derived address record, as assembled per index inside the
constructor of `TrezorWallet`. -/
structure AddressObject where
  path : String
  publicKey : String
  address : String
deriving DecidableEq, Repr, Inhabited

/-- The observable state of an injected provider: its `chainId` (absent
when the provider object lacks the field), `testnet` flag and network
`name`. -/
structure ProviderState where
  chainId : Option Int
  testnet : Bool
  name : String
deriving DecidableEq, Repr, Inhabited

/-- The state of a constructed `TrezorWallet` instance.
`otherAddressesArray` is the constructor-local `otherAddresses` array
captured by the `setDefaultAddress` closure (it always holds every
derived record); `otherAddressesProp` is the instance property of the
same name, defined only when `addressCount > 1`. -/
structure TrezorWallet where
  address : String
  publicKey : String
  path : String
  provider : Option ProviderState
  otherAddressesArray : List AddressObject
  otherAddressesProp : Option (List String)
deriving DecidableEq, Repr, Inhabited

/-- The response to an `XpubExport` round-trip. -/
structure XpubResponse where
  publicKey : String
  chainCode : String
deriving DecidableEq, Repr, Inhabited

/-- The fields of a `TransactionObjectType` consumed by `sign` /
`signTransaction`; absent fields are `none` (JavaScript `undefined`). -/
structure TransactionArgs where
  path : Option String
  gasPrice : Option String
  gasLimit : Option String
  chainId : Option Int
  nonce : Option Int
  «to» : Option String
  value : Option String
  data : Option String
deriving DecidableEq, Repr, Inhabited

/-- The `SignTx` request payload built by `signTransaction` (the
per-kind payload template merged with the caller-supplied fields). -/
structure SignTxPayload where
  address_n : List Nat
  gas_price : Option String
  gas_limit : Option String
  chain_id : Int
  nonce : String
  «to» : Option String
  value : Option String
  data : Option String
deriving DecidableEq, Repr, Inhabited

/-- The three signature components returned from a successful `SignTx`
round-trip. -/
structure SignTxResponse where
  r : String
  s : String
  v : Nat
deriving DecidableEq, Repr, Inhabited

/-- The `SignMessage` request payload. -/
structure SignMsgPayload where
  path : List Nat
  message : Option String
deriving DecidableEq, Repr, Inhabited

/-- The `VerifyMessage` request payload. -/
structure VerifyMsgPayload where
  address : String
  message : Option String
  signature : Option String
deriving DecidableEq, Repr, Inhabited

/- ## The derivation engine of the constructor -/

/-- The address-derivation loop of the constructor
(`Array.from(new Array(addressCount || 1), (value, index) => ...)`): for
each index, the child key is derived from the path string `m/{index}`
(the coin type does not appear in the derive call), the record's `path`
is built by the serializer from `{coinType, addressIndex}`, and the
address comes from the derived public key. -/
def deriveAddressObjects (kd : KeyDerivation) (publicKey chainCode : String)
    (coinType : Nat) (addressCount : Nat) : List AddressObject :=
  (List.range (if addressCount = 0 then 1 else addressCount)).map (fun index =>
    let derivedPublicKey := kd.derive publicKey chainCode ("m/" ++ toString index)
    { path := derivationPathSerializer coinType (some index)
      publicKey := derivedPublicKey
      address := kd.toAddress derivedPublicKey })

/-- The derivation step as the claim words it, for comparison: a child
key derived at the two-level path `m/{coinType}/{index}`, with the coin
type participating in the key derivation itself. -/
def claimDeriveAddressObject (kd : KeyDerivation) (publicKey chainCode : String)
    (coinType : Nat) (index : Nat) : AddressObject :=
  let derivedPublicKey :=
    kd.derive publicKey chainCode ("m/" ++ toString coinType ++ "/" ++ toString index)
  { path := derivationPathSerializer coinType (some index)
    publicKey := derivedPublicKey
    address := kd.toAddress derivedPublicKey }

/- ## The constructor -/

/-- The `TrezorWallet` constructor: validates `addressCount` (parameter
default `10` when absent), runs the derivation loop once, sets the
default triple from the record at index 0, and defines the
`otherAddresses` property — mapping `address` over the whole derived
array — only when `addressCount > 1`. -/
def TrezorWallet.construct (kd : KeyDerivation) (publicKey chainCode : String)
    (coinType : Nat) (addressCount : Option Int) (provider : Option ProviderState) :
    Except JsError TrezorWallet :=
  let count : Int := addressCount.getD 10
  match safeIntegerValidator count with
  | .error e => .error e
  | .ok _ =>
    let otherAddresses := deriveAddressObjects kd publicKey chainCode coinType count.toNat
    let first := otherAddresses.headD default
    .ok
      { address := first.address
        publicKey := first.publicKey
        path := first.path
        provider := provider
        otherAddressesArray := otherAddresses
        otherAddressesProp :=
          if 1 < count then some (otherAddresses.map (fun record => record.address))
          else none }

/- ## setDefaultAddress -/

/-- The three observable outcomes of the asynchronous
`setDefaultAddress`: resolving `true` with the updated instance,
resolving `false` with the instance untouched, or rejecting with an
error (validator failure or runtime TypeError), also leaving the
instance untouched. -/
inductive SetDefaultAddressResult where
  | resolvedTrue (w : TrezorWallet)
  | resolvedFalse (w : TrezorWallet)
  | rejected (w : TrezorWallet) (e : JsError)
deriving DecidableEq, Repr

/-- `setDefaultAddress(addressIndex)`: validates the index, then — when
`0 <= addressIndex <= otherAddresses.length` — reads
`otherAddresses[addressIndex]` and reassigns the default triple.  When
the index equals the array length that element is `undefined` and the
property reads throw a TypeError before any assignment happens. -/
def TrezorWallet.setDefaultAddress (w : TrezorWallet) (addressIndex : Int) :
    SetDefaultAddressResult :=
  match safeIntegerValidator addressIndex with
  | .error e => .rejected w e
  | .ok _ =>
    if 0 ≤ addressIndex ∧ addressIndex ≤ (w.otherAddressesArray.length : Int) then
      match w.otherAddressesArray.get? addressIndex.toNat with
      | some record =>
          .resolvedTrue { w with
            address := record.address
            publicKey := record.publicKey
            path := record.path }
      | none => .rejected w (JsError.typeError TYPE_ERROR_UNDEFINED_MESSAGE)
    else
      .resolvedFalse w

/- ## The static open() factory -/

/-- The observable outcome of the asynchronous static `open()`: it
either resolves to a wallet instance or resolves to `undefined`; the
`warned` flag records whether the catch block emitted the
user-export-cancel warning (it does exactly when the caught error's
message equals the export-cancellation sentinel). -/
inductive OpenResult where
  | resolvedWallet (w : TrezorWallet)
  | resolvedUndefined (warned : Bool)
deriving DecidableEq, Repr

/-- The body of the `try` block of `open()`: one `XpubExport`
round-trip through the injected transport, then construction of the
wallet instance from the returned public key and chain code.  The
transport outcome is the rejection message or the response. -/
def openTryBlock (kd : KeyDerivation) (transport : Except String XpubResponse)
    (coinType : Nat) (addressCount : Option Int) (providerMode : Option ProviderState) :
    Except JsError TrezorWallet :=
  match transport with
  | .error msg => .error (JsError.transport msg)
  | .ok response =>
      TrezorWallet.construct kd response.publicKey response.chainCode coinType
        addressCount providerMode

/-- The static `open({addressCount, provider})` factory: selects the
coin type from the provider (testnet flag set, or a network name other
than the main network, switches it to the testnet coin type), runs the
export round-trip and the constructor inside one `try`, and in the
`catch` returns `undefined` — emitting the cancellation warning only
when the caught message equals the export-cancellation sentinel. -/
def openWallet (kd : KeyDerivation) (transport : Except String XpubResponse)
    (addressCount : Option Int) (provider : Option ProviderState) : OpenResult :=
  let providerMode := provider
  let coinType :=
    match providerMode with
    | some p => if p.testnet || p.name ≠ MAIN_NETWORK then COIN_TESTNET else COIN_MAINNET
    | none => COIN_MAINNET
  match openTryBlock kd transport coinType addressCount providerMode with
  | .ok w => .resolvedWallet w
  | .error e => .resolvedUndefined (e.message == CANCEL_ACC_EXPORT)

/- ## The static signTransaction flow -/

/-- The hexadecimal rendering of the nonce (`nonce.toString(16)`),
lower-case digits. -/
def natToHexString (n : Nat) : String :=
  String.mk (Nat.toDigits 16 n)

/-- The nonce encoding of `signTransaction`: hex string left-padded with
zeros to `Math.ceil(length / 2) * 2`, an even number of digits. -/
def natToEvenHex (n : Nat) : String :=
  let hexNonce := natToHexString n
  padLeft ((hexNonce.length + 1) / 2 * 2) hexNonce

/-- The validation and request-building prefix of the static
`signTransaction` (everything before the `try` block, in source order):
path validation, nonce defaulting and validation, chain-id validation,
then the merged `SignTx` payload with the path in array form and the
even-length hex nonce. -/
def buildSignTxRequest (args : TransactionArgs) : Except JsError SignTxPayload :=
  match args.path with
  | none => .error (JsError.inputValidation INVALID_PATH_MESSAGE)
  | some path =>
    if !derivationPathValid path then
      .error (JsError.inputValidation INVALID_PATH_MESSAGE)
    else
      let nonce := args.nonce.getD 0
      match safeIntegerValidator nonce with
      | .error e => .error e
      | .ok _ =>
        match args.chainId with
        | none => .error (JsError.inputValidation INVALID_SAFE_INTEGER_MESSAGE)
        | some chainId =>
          match safeIntegerValidator chainId with
          | .error e => .error e
          | .ok _ =>
            .ok { address_n := toPathArray (derivationPathNormalizer path)
                  gas_price := args.gasPrice
                  gas_limit := args.gasLimit
                  chain_id := chainId
                  nonce := natToEvenHex nonce.toNat
                  «to» := args.«to»
                  value := args.value
                  data := args.data }

/-- The observable outcome of the asynchronous static `signTransaction`:
the signature components, a resolution to `undefined` from the catch
block (`warned` is true exactly when the rejection message equals the
transaction-sign cancellation sentinel), or a rejection from the
validators, which run before the `try`. -/
inductive SignTxResult where
  | signed (response : SignTxResponse)
  | resolvedUndefined (warned : Bool)
  | rejected (e : JsError)
deriving DecidableEq, Repr

/-- The static `signTransaction`: builds the request (validators may
reject), then awaits the transport inside a `try` whose `catch` returns
`undefined` for every rejection, warning only on the sentinel match. -/
def signTransaction (transport : SignTxPayload → Except String SignTxResponse)
    (args : TransactionArgs) : SignTxResult :=
  match buildSignTxRequest args with
  | .error e => .rejected e
  | .ok payload =>
    match transport payload with
    | .ok response => .signed response
    | .error msg => .resolvedUndefined (msg == CANCEL_TX_SIGN)

/- ## The static signMessage and verifyMessage flows -/

/-- The static `signMessage({path, message})`: validates the path,
builds the `SignMessage` payload with the path in array form, and awaits
the transport with no `try`/`catch` — every transport rejection
propagates unmodified, and the signature is extracted on success. -/
def signMessageOp (transport : SignMsgPayload → Except String String)
    (path : Option String) (message : Option String) : Except JsError String :=
  match path with
  | none => .error (JsError.inputValidation INVALID_PATH_MESSAGE)
  | some p =>
    if !derivationPathValid p then
      .error (JsError.inputValidation INVALID_PATH_MESSAGE)
    else
      match transport { path := toPathArray (derivationPathNormalizer p)
                        message := message } with
      | .ok signedMessage => .ok signedMessage
      | .error msg => .error (JsError.transport msg)

/-- The static `verifyMessage({address, message, signature})`: runs the
external checksum validation (`ethers` `getAddress`, an injected
capability here), strips an optional leading hex prefix, builds the
`VerifyMessage` payload, and awaits the transport with no `try`/`catch`
— every transport rejection propagates unmodified, and the `success`
flag is extracted on success. -/
def verifyMessageOp (validateAddress : Option String → Except JsError String)
    (transport : VerifyMsgPayload → Except String Bool)
    (address message signature : Option String) : Except JsError Bool :=
  match validateAddress address with
  | .error e => .error e
  | .ok validatedAddress =>
    let strippedPrefixAddress :=
      if validatedAddress.take 2 = "0x" then validatedAddress.drop 2
      else validatedAddress
    match transport { address := strippedPrefixAddress
                      message := message
                      signature := signature } with
    | .ok success => .ok success
    | .error msg => .error (JsError.transport msg)

/- ## The instance methods bound to the default identity -/

/-- The argument object the instance `sign` method passes to the static
`signTransaction`: the caller's transaction object merged with
`{path: this.path, chainId}` (the merge overwrites any caller-supplied
path), where `chainId` keeps an explicitly present value and otherwise
defaults to `(this.provider && this.provider.chainId) || 1` under
JavaScript truthiness. -/
def TrezorWallet.signArgs (w : TrezorWallet) (transactionObject : TransactionArgs) :
    TransactionArgs :=
  let chainId : Int :=
    match transactionObject.chainId with
    | some c => c
    | none =>
      match w.provider with
      | some p =>
        match p.chainId with
        | some c => if c = 0 then 1 else c
        | none => 1
      | none => 1
  { transactionObject with path := some w.path, chainId := some chainId }

/-- The instance `sign(transactionObject)` method: delegates to the
static `signTransaction` on the merged argument object. -/
def TrezorWallet.sign (w : TrezorWallet)
    (transport : SignTxPayload → Except String SignTxResponse)
    (transactionObject : TransactionArgs) : SignTxResult :=
  signTransaction transport (w.signArgs transactionObject)

/-- The instance `signMessage({message})` method: delegates to the
static flow with the instance's current default path. -/
def TrezorWallet.signMessageMethod (w : TrezorWallet)
    (transport : SignMsgPayload → Except String String)
    (message : Option String) : Except JsError String :=
  signMessageOp transport (some w.path) message

/-- The instance `verifyMessage({address, message, signature})` method:
delegates to the static flow, the address defaulting to the instance's
current default address. -/
def TrezorWallet.verifyMessageMethod (w : TrezorWallet)
    (validateAddress : Option String → Except JsError String)
    (transport : VerifyMsgPayload → Except String Bool)
    (address message signature : Option String) : Except JsError Bool :=
  verifyMessageOp validateAddress transport
    (some (address.getD w.address)) message signature

/- ## Concrete fixtures -/

/-- A concrete key-derivation capability for concrete runs: the derived
public key echoes the path string handed to `derive` (making visible
exactly which path the constructor derives from), and the address is a
tagged copy of the derived public key. -/
def pathEchoKeyDerivation : KeyDerivation :=
  { derive := fun _ _ pathString => pathString
    toAddress := fun derivedPublicKey => "address-of-" ++ derivedPublicKey }

/-- The wallet obtained from the constructor with the echoing
capability, root key `"aa"`, chain code `"bb"`, coin type 60 and
`addressCount = 2`. -/
def exampleWalletCount2 : TrezorWallet :=
  (TrezorWallet.construct pathEchoKeyDerivation "aa" "bb" 60 (some 2) none).toOption.getD
    default

/-- A provider whose `chainId` is 4, on the main network. -/
def exampleProviderChain4 : ProviderState :=
  { chainId := some 4, testnet := false, name := MAIN_NETWORK }

/-- A minimal wallet state with no provider, used to exercise the
instance `sign` method. -/
def exampleWalletNoProvider : TrezorWallet :=
  { address := "address-of-m/0"
    publicKey := "m/0"
    path := "m/0"
    provider := none
    otherAddressesArray := []
    otherAddressesProp := none }

/-- The same minimal wallet state with the chain-id-4 provider set. -/
def exampleWalletProvider4 : TrezorWallet :=
  { exampleWalletNoProvider with provider := some exampleProviderChain4 }

/-- A concrete transaction argument object that passes every validator:
canonical one-level path, explicit chain id 1, nonce 3. -/
def exampleTxArgs : TransactionArgs :=
  { path := some "m/0"
    gasPrice := some "6fc23ac00"
    gasLimit := some "5208"
    chainId := some 1
    nonce := some 3
    «to» := some "123456"
    value := some "0"
    data := some "" }

/-- The `SignTx` payload built from `exampleTxArgs`. -/
def examplePayload : SignTxPayload :=
  (buildSignTxRequest exampleTxArgs).toOption.getD default

/- ## Shared helper lemmas -/

/-- The derivation loop produces `addressCount` records, or one record
when the count is zero (`new Array(addressCount || 1)`). -/
theorem deriveAddressObjects_length (kd : KeyDerivation) (publicKey chainCode : String)
    (coinType addressCount : Nat) :
    (deriveAddressObjects kd publicKey chainCode coinType addressCount).length =
      if addressCount = 0 then 1 else addressCount := by
  simp [deriveAddressObjects]

/-- Inversion of a successful construction: the captured array is the
derivation loop's output and the `otherAddresses` property is its
address map exactly when more than one address was requested. -/
theorem construct_inv (kd : KeyDerivation) (publicKey chainCode : String)
    (coinType : Nat) (provider : Option ProviderState) (n : Int) (w : TrezorWallet)
    (h0 : 0 ≤ n) (hmax : n ≤ SAFE_INTEGER_MAX)
    (hw : TrezorWallet.construct kd publicKey chainCode coinType (some n) provider =
      .ok w) :
    w.otherAddressesArray = deriveAddressObjects kd publicKey chainCode coinType n.toNat
    ∧ w.otherAddressesProp =
        (if 1 < n then
          some ((deriveAddressObjects kd publicKey chainCode coinType n.toNat).map
            (fun record => record.address))
         else none)
    ∧ w.provider = provider := by
  unfold TrezorWallet.construct safeIntegerValidator at hw
  simp only [Option.getD] at hw
  rw [if_pos ⟨h0, hmax⟩] at hw
  simp only [Except.ok.injEq] at hw
  subst hw
  exact ⟨rfl, rfl, rfl⟩

/- ## Counterexample theorems -/

/-- C1 counterexample: on the wallet constructed with `addressCount = 2`
the call `setDefaultAddress(2)` — the inclusive boundary the claim says
succeeds — passes the range guard but rejects with a TypeError from
reading the missing record, so it neither returns true nor reassigns
the default triple. -/
theorem setDefaultAddress_at_count_throws :
    TrezorWallet.construct pathEchoKeyDerivation "aa" "bb" 60 (some 2) none =
      .ok exampleWalletCount2
    ∧ exampleWalletCount2.otherAddressesArray.length = 2
    ∧ exampleWalletCount2.setDefaultAddress 2 =
        .rejected exampleWalletCount2 (JsError.typeError TYPE_ERROR_UNDEFINED_MESSAGE) :=
  ⟨rfl, rfl, rfl⟩

/-- C2 counterexample: with the path-echoing capability the record at
index 0 carries the derived public key `m/0` whether the coin type is
the mainnet 60 or the testnet 1, while the derivation the claim
describes (`m/{coinType}/{i}`) would have produced `m/60/0` — the coin
type does not reach the derive call. -/
theorem derive_ignores_coinType_counterexample :
    (deriveAddressObjects pathEchoKeyDerivation "aa" "bb" COIN_MAINNET 1).map
        (fun record => record.publicKey) = ["m/0"]
    ∧ (deriveAddressObjects pathEchoKeyDerivation "aa" "bb" COIN_TESTNET 1).map
        (fun record => record.publicKey) = ["m/0"]
    ∧ (claimDeriveAddressObject pathEchoKeyDerivation "aa" "bb" COIN_MAINNET 0).publicKey =
        "m/60/0"
    ∧ ("m/0" : String) ≠ "m/60/0" :=
  ⟨rfl, rfl, rfl, by decide⟩

/-- C3 counterexample: on the wallet constructed with `addressCount = 2`
the `otherAddresses` property holds both derived addresses — including
the index-0 address, which is also the default address — so its length
is 2, not `addressCount - 1 = 1`. -/
theorem otherAddresses_includes_index_zero :
    TrezorWallet.construct pathEchoKeyDerivation "aa" "bb" 60 (some 2) none =
      .ok exampleWalletCount2
    ∧ exampleWalletCount2.otherAddressesProp =
        some ["address-of-m/0", "address-of-m/1"]
    ∧ exampleWalletCount2.address = "address-of-m/0"
    ∧ (["address-of-m/0", "address-of-m/1"] : List String).length ≠ 2 - 1 :=
  ⟨rfl, rfl, rfl, by decide⟩

/-- C4 counterexample: a transport rejection with the non-sentinel
message `"hardware fault"` makes `open()` resolve to `undefined` with no
warning — the rejection is converted into an absent result instead of
propagating to the caller. -/
theorem open_swallows_transport_error :
    ("hardware fault" : String) ≠ CANCEL_ACC_EXPORT
    ∧ openWallet pathEchoKeyDerivation (.error "hardware fault") (some 1) none =
        .resolvedUndefined false :=
  ⟨by decide, rfl⟩

/-- C5 counterexample: `addressCount = -1` fails the safe-integer
validator inside the constructor, but because the constructor runs
inside `open()`'s `try` block the resulting `InputValidationError` is
caught and `open()` resolves to `undefined` (with no warning) instead of
rejecting. -/
theorem open_resolves_on_invalid_addressCount :
    safeIntegerValidator (-1) =
      .error (JsError.inputValidation INVALID_SAFE_INTEGER_MESSAGE)
    ∧ openWallet pathEchoKeyDerivation (.ok ⟨"aa", "bb"⟩) (some (-1)) none =
        .resolvedUndefined false :=
  ⟨rfl, rfl⟩

/- ## Claim theorems: confirmed claims -/

/-- C6: a transport rejection bearing the export-cancellation sentinel
makes `open()` resolve to `undefined` (rather than reject) and emit the
warning, and one bearing the transaction-sign sentinel makes
`signTransaction` resolve to `undefined` and emit the warning — in both
flows the cancellation becomes an absent, non-fatal result. -/
theorem cancellation_resolves_undefined_with_warning :
    (∀ (kd : KeyDerivation) (addressCount : Option Int)
        (provider : Option ProviderState),
      openWallet kd (.error CANCEL_ACC_EXPORT) addressCount provider =
        .resolvedUndefined true)
    ∧ (∀ (args : TransactionArgs) (payload : SignTxPayload),
        buildSignTxRequest args = .ok payload →
        signTransaction (fun _ => .error CANCEL_TX_SIGN) args =
          .resolvedUndefined true) := by
  constructor
  · intro kd addressCount provider
    simp [openWallet, openTryBlock, JsError.message]
  · intro args payload hbuild
    simp [signTransaction, hbuild]

/-- Witness for C6 at concrete inputs: the echoing capability with
`addressCount = 1`, and the example transaction arguments. -/
theorem cancellation_resolves_undefined_with_warning_witness :
    openWallet pathEchoKeyDerivation (.error CANCEL_ACC_EXPORT) (some 1) none =
      .resolvedUndefined true
    ∧ signTransaction (fun _ => .error CANCEL_TX_SIGN) exampleTxArgs =
        .resolvedUndefined true :=
  ⟨cancellation_resolves_undefined_with_warning.1 pathEchoKeyDerivation (some 1) none,
   cancellation_resolves_undefined_with_warning.2 exampleTxArgs examplePayload rfl⟩

/-- C7: `signMessage` and `verifyMessage` recognize no cancellation
sentinel — every transport rejection, whatever its message (sentinels
included), propagates to the caller as a fatal transport error and
neither operation ever resolves with an absent value. -/
theorem message_ops_propagate_all_rejections :
    (∀ (msg path : String) (message : Option String),
      derivationPathValid path = true →
      signMessageOp (fun _ => .error msg) (some path) message =
        .error (JsError.transport msg))
    ∧ (∀ (validateAddress : Option String → Except JsError String)
        (msg checked : String) (address message signature : Option String),
        validateAddress address = .ok checked →
        verifyMessageOp validateAddress (fun _ => .error msg)
          address message signature = .error (JsError.transport msg)) := by
  constructor
  · intro msg path message hvalid
    simp [signMessageOp, hvalid]
  · intro validateAddress msg checked address message signature hva
    simp [verifyMessageOp, hva]

/-- Witness for C7 at concrete inputs, with the rejection message being
precisely a cancellation sentinel in each case: even then the rejection
propagates. -/
theorem message_ops_propagate_all_rejections_witness :
    signMessageOp (fun _ => .error CANCEL_TX_SIGN) (some "m/0") none =
      .error (JsError.transport CANCEL_TX_SIGN)
    ∧ verifyMessageOp (fun a => .ok (a.getD "")) (fun _ => .error CANCEL_ACC_EXPORT)
        (some "0xabc") none none = .error (JsError.transport CANCEL_ACC_EXPORT) :=
  ⟨message_ops_propagate_all_rejections.1 CANCEL_TX_SIGN "m/0" none (by decide),
   message_ops_propagate_all_rejections.2 (fun a => .ok (a.getD ""))
     CANCEL_ACC_EXPORT "0xabc" (some "0xabc") none none rfl⟩

/-- C8: the chain id the instance `sign` method hands to
`signTransaction` is resolved by precedence — an explicitly present
`transactionObject.chainId` wins regardless of provider, otherwise the
provider's chain id when a provider with a chain id is set, otherwise
the literal 1. -/
theorem sign_chainId_precedence :
    (∀ (w : TrezorWallet) (transactionObject : TransactionArgs) (c : Int),
      transactionObject.chainId = some c →
      (w.signArgs transactionObject).chainId = some c)
    ∧ (∀ (w : TrezorWallet) (transactionObject : TransactionArgs)
        (p : ProviderState) (c : Int),
        transactionObject.chainId = none → w.provider = some p →
        p.chainId = some c → c ≠ 0 →
        (w.signArgs transactionObject).chainId = some c)
    ∧ (∀ (w : TrezorWallet) (transactionObject : TransactionArgs),
        transactionObject.chainId = none → w.provider = none →
        (w.signArgs transactionObject).chainId = some 1) := by
  refine ⟨?_, ?_, ?_⟩
  · intro w transactionObject c hc
    simp [TrezorWallet.signArgs, hc]
  · intro w transactionObject p c htx hprov hchain hc
    simp [TrezorWallet.signArgs, htx, hprov, hchain, hc]
  · intro w transactionObject htx hprov
    simp [TrezorWallet.signArgs, htx, hprov]

/-- Witness for C8 at the claim's own examples: explicit chain id 4 wins
over a provider with chain id 4; an absent explicit value with that
provider yields 4; absent both yields 1. -/
theorem sign_chainId_precedence_witness :
    (exampleWalletProvider4.signArgs { exampleTxArgs with chainId := some 4 }).chainId =
      some 4
    ∧ (exampleWalletProvider4.signArgs { exampleTxArgs with chainId := none }).chainId =
        some 4
    ∧ (exampleWalletNoProvider.signArgs { exampleTxArgs with chainId := none }).chainId =
        some 1 :=
  ⟨sign_chainId_precedence.1 exampleWalletProvider4 _ 4 rfl,
   sign_chainId_precedence.2.1 exampleWalletProvider4 _ exampleProviderChain4 4
     rfl rfl rfl (by decide),
   sign_chainId_precedence.2.2 exampleWalletNoProvider _ rfl rfl⟩

/-- The padded string has the target length whenever the target is at
least the input's length. -/
theorem padLeft_length (targetLength : Nat) (value : String) :
    (padLeft targetLength value).length =
      (targetLength - value.length) + value.length := by
  show (List.replicate (targetLength - value.length) '0' ++ value.data).length = _
  rw [List.length_append, List.length_replicate]
  rfl

/-- C9: `signTransaction` places in the `SignTx` request the nonce as a
hexadecimal string left-padded with zeros to an even number of digits;
in particular 3 encodes as "03" and 300 as "012c". -/
theorem nonce_hex_even_padding :
    (∀ (args : TransactionArgs) (payload : SignTxPayload) (n : Int),
      args.nonce = some n → buildSignTxRequest args = .ok payload →
      payload.nonce = natToEvenHex n.toNat)
    ∧ natToEvenHex 3 = "03"
    ∧ natToEvenHex 300 = "012c"
    ∧ (∀ m : Nat, (natToEvenHex m).length % 2 = 0) := by
  refine ⟨?_, rfl, rfl, ?_⟩
  · intro args payload n hn hbuild
    rcases hpath : args.path with _ | path
    · simp [buildSignTxRequest, hpath] at hbuild
    · by_cases hvalid : derivationPathValid path = true
      · by_cases hnonce : 0 ≤ args.nonce.getD 0 ∧ args.nonce.getD 0 ≤ SAFE_INTEGER_MAX
        · rcases hcid : args.chainId with _ | chainId
          · simp [buildSignTxRequest, hpath, hvalid, safeIntegerValidator, hnonce,
              hcid] at hbuild
          · by_cases hcidv : 0 ≤ chainId ∧ chainId ≤ SAFE_INTEGER_MAX
            · simp only [buildSignTxRequest, hpath, hvalid, safeIntegerValidator,
                if_pos hnonce, if_pos hcidv, hcid, Bool.not_true, Bool.false_eq_true,
                if_false, Except.ok.injEq] at hbuild
              subst hbuild
              simp [hn]
            · simp [buildSignTxRequest, hpath, hvalid, safeIntegerValidator, hnonce,
                hcid, hcidv] at hbuild
        · simp [buildSignTxRequest, hpath, hvalid, safeIntegerValidator, hnonce] at hbuild
      · simp [buildSignTxRequest, hpath, hvalid] at hbuild
  · intro m
    rw [natToEvenHex, padLeft_length]
    omega

/-- Witness for C9 at the concrete transaction arguments with nonce 3:
the built request carries nonce "03", and the padded length of the
300 encoding is even. -/
theorem nonce_hex_even_padding_witness :
    examplePayload.nonce = natToEvenHex (Int.toNat 3)
    ∧ natToEvenHex 3 = "03"
    ∧ (natToEvenHex 300).length % 2 = 0 :=
  ⟨nonce_hex_even_padding.1 exampleTxArgs examplePayload 3 rfl rfl,
   nonce_hex_even_padding.2.1,
   nonce_hex_even_padding.2.2.2 300⟩

/-- C10: the instance `sign` method always sends the wallet's current
default path to `signTransaction` — the merge overwrites any
caller-supplied `path` on the transaction object — and delegates the
merged arguments unchanged. -/
theorem sign_overrides_caller_path :
    ∀ (w : TrezorWallet) (transport : SignTxPayload → Except String SignTxResponse)
      (transactionObject : TransactionArgs),
      (w.signArgs transactionObject).path = some w.path
      ∧ w.sign transport transactionObject =
          signTransaction transport (w.signArgs transactionObject) := by
  intro w transport transactionObject
  exact ⟨rfl, rfl⟩

/- ## Claim theorems: corrected claims (amended statements) -/

/-- C2 amended: the derivation engine inside the constructor derives the
child key at the single-level path `m/{i}` — the derived public key and
address of record `i` are a function of (publicKey, chainCode, i) only,
invariant under the coin type, and the coin type participates solely in
the serialized path string of the record. -/
theorem derivation_uses_only_index :
    ∀ (kd : KeyDerivation) (publicKey chainCode : String) (c1 c2 addressCount : Nat),
      ((deriveAddressObjects kd publicKey chainCode c1 addressCount).map
          (fun record => record.publicKey) =
        (List.range (if addressCount = 0 then 1 else addressCount)).map
          (fun index => kd.derive publicKey chainCode ("m/" ++ toString index)))
      ∧ ((deriveAddressObjects kd publicKey chainCode c1 addressCount).map
          (fun record => record.publicKey) =
        (deriveAddressObjects kd publicKey chainCode c2 addressCount).map
          (fun record => record.publicKey))
      ∧ ((deriveAddressObjects kd publicKey chainCode c1 addressCount).map
          (fun record => record.address) =
        (deriveAddressObjects kd publicKey chainCode c2 addressCount).map
          (fun record => record.address))
      ∧ ((deriveAddressObjects kd publicKey chainCode c1 addressCount).map
          (fun record => record.path) =
        (List.range (if addressCount = 0 then 1 else addressCount)).map
          (fun index => derivationPathSerializer c1 (some index))) := by
  intro kd publicKey chainCode c1 c2 addressCount
  refine ⟨?_, ?_, ?_, ?_⟩ <;> simp [deriveAddressObjects, List.map_map, Function.comp]

/-- C3 amended: for a wallet constructed with `addressCount > 1` the
`otherAddresses` property holds the addresses of every derived record —
indices 0 through `addressCount - 1`, the index-0 default address
included — in derivation order, so its length equals `addressCount`;
for `addressCount = 1` the property is absent. -/
theorem otherAddresses_holds_all_addresses (kd : KeyDerivation)
    (publicKey chainCode : String) (coinType : Nat) (provider : Option ProviderState)
    (n : Int) (w : TrezorWallet)
    (hn : 1 ≤ n) (hmax : n ≤ SAFE_INTEGER_MAX)
    (hw : TrezorWallet.construct kd publicKey chainCode coinType (some n) provider =
      .ok w) :
    (1 < n →
      w.otherAddressesProp = some (w.otherAddressesArray.map (fun record => record.address))
      ∧ ∀ l, w.otherAddressesProp = some l → (l.length : Int) = n)
    ∧ (n = 1 → w.otherAddressesProp = none) := by
  obtain ⟨harr, hprop, -⟩ :=
    construct_inv kd publicKey chainCode coinType provider n w (by omega) hmax hw
  constructor
  · intro hgt
    rw [if_pos hgt] at hprop
    refine ⟨by rw [hprop, harr], ?_⟩
    intro l hl
    rw [hprop] at hl
    obtain rfl : (deriveAddressObjects kd publicKey chainCode coinType n.toNat).map
        (fun record => record.address) = l := by
      exact Option.some.inj hl
    rw [List.length_map, deriveAddressObjects_length]
    rw [if_neg (by omega)]
    omega
  · intro h1
    rw [if_neg (by omega)] at hprop
    exact hprop

/-- Witness for C3 amended on the concrete two-address wallet: the
property holds both addresses and its length is 2. -/
theorem otherAddresses_holds_all_addresses_witness :
    exampleWalletCount2.otherAddressesProp =
      some (exampleWalletCount2.otherAddressesArray.map (fun record => record.address))
    ∧ ((["address-of-m/0", "address-of-m/1"] : List String).length : Int) = 2 :=
  ⟨((otherAddresses_holds_all_addresses pathEchoKeyDerivation "aa" "bb" 60 none 2
      exampleWalletCount2 (by decide) (by decide) rfl).1 (by decide)).1,
   ((otherAddresses_holds_all_addresses pathEchoKeyDerivation "aa" "bb" 60 none 2
      exampleWalletCount2 (by decide) (by decide) rfl).1 (by decide)).2
     ["address-of-m/0", "address-of-m/1"] rfl⟩

/-- C4 amended: the propagation of transport rejections is asymmetric —
`signMessage` and `verifyMessage` propagate every transport rejection
unmodified as a fatal error, but `open()` and `signTransaction` catch
every rejection, sentinel-matching or not, and resolve to `undefined`
(warning only on the sentinel match), so a non-sentinel rejection there
becomes an absent result rather than a propagated error. -/
theorem transport_error_asymmetry :
    (∀ (kd : KeyDerivation) (addressCount : Option Int)
        (provider : Option ProviderState) (msg : String),
      msg ≠ CANCEL_ACC_EXPORT →
      openWallet kd (.error msg) addressCount provider = .resolvedUndefined false)
    ∧ (∀ (args : TransactionArgs) (payload : SignTxPayload) (msg : String),
        buildSignTxRequest args = .ok payload → msg ≠ CANCEL_TX_SIGN →
        signTransaction (fun _ => .error msg) args = .resolvedUndefined false)
    ∧ (∀ (msg path : String) (message : Option String),
        derivationPathValid path = true →
        signMessageOp (fun _ => .error msg) (some path) message =
          .error (JsError.transport msg))
    ∧ (∀ (validateAddress : Option String → Except JsError String)
        (msg checked : String) (address message signature : Option String),
        validateAddress address = .ok checked →
        verifyMessageOp validateAddress (fun _ => .error msg)
          address message signature = .error (JsError.transport msg)) := by
  refine ⟨?_, ?_, ?_, ?_⟩
  · intro kd addressCount provider msg hmsg
    simp [openWallet, openTryBlock, JsError.message, hmsg]
  · intro args payload msg hbuild hmsg
    simp [signTransaction, hbuild, hmsg]
  · intro msg path message hvalid
    simp [signMessageOp, hvalid]
  · intro validateAddress msg checked address message signature hva
    simp [verifyMessageOp, hva]

/-- Witness for C4 amended at concrete inputs, with the non-sentinel
rejection message `"hardware fault"` in each flow. -/
theorem transport_error_asymmetry_witness :
    openWallet pathEchoKeyDerivation (.error "hardware fault") (some 1) none =
      .resolvedUndefined false
    ∧ signTransaction (fun _ => .error "hardware fault") exampleTxArgs =
        .resolvedUndefined false
    ∧ signMessageOp (fun _ => .error "hardware fault") (some "m/0") none =
        .error (JsError.transport "hardware fault")
    ∧ verifyMessageOp (fun a => .ok (a.getD "")) (fun _ => .error "hardware fault")
        (some "0xabc") none none = .error (JsError.transport "hardware fault") :=
  ⟨transport_error_asymmetry.1 pathEchoKeyDerivation (some 1) none "hardware fault"
     (by decide),
   transport_error_asymmetry.2.1 exampleTxArgs examplePayload "hardware fault"
     rfl (by decide),
   transport_error_asymmetry.2.2.1 "hardware fault" "m/0" none (by decide),
   transport_error_asymmetry.2.2.2 (fun a => .ok (a.getD "")) "hardware fault"
     "0xabc" (some "0xabc") none none rfl⟩

/-- C5 amended: an `InputValidationError` thrown by a validator is fatal
and uncaught in direct construction, in `signTransaction` (where the
validators run before the `try` block) and in `setDefaultAddress`, but
an `addressCount` failing the safe-integer validator inside `open()` is
caught by `open()`'s catch-all and makes `open()` resolve to `undefined`
(with no warning) rather than reject. -/
theorem validation_error_propagation :
    (∀ (kd : KeyDerivation) (publicKey chainCode : String) (coinType : Nat)
        (n : Int) (provider : Option ProviderState),
      ¬ (0 ≤ n ∧ n ≤ SAFE_INTEGER_MAX) →
      TrezorWallet.construct kd publicKey chainCode coinType (some n) provider =
        .error (JsError.inputValidation INVALID_SAFE_INTEGER_MESSAGE))
    ∧ (∀ (transport : SignTxPayload → Except String SignTxResponse)
        (args : TransactionArgs) (path : String) (n : Int),
        args.path = some path → derivationPathValid path = true →
        args.nonce = some n → ¬ (0 ≤ n ∧ n ≤ SAFE_INTEGER_MAX) →
        signTransaction transport args =
          .rejected (JsError.inputValidation INVALID_SAFE_INTEGER_MESSAGE))
    ∧ (∀ (w : TrezorWallet) (index : Int),
        ¬ (0 ≤ index ∧ index ≤ SAFE_INTEGER_MAX) →
        w.setDefaultAddress index =
          .rejected w (JsError.inputValidation INVALID_SAFE_INTEGER_MESSAGE))
    ∧ (∀ (kd : KeyDerivation) (response : XpubResponse) (n : Int)
        (provider : Option ProviderState),
        ¬ (0 ≤ n ∧ n ≤ SAFE_INTEGER_MAX) →
        openWallet kd (.ok response) (some n) provider = .resolvedUndefined false) := by
  have hconstruct : ∀ (kd : KeyDerivation) (publicKey chainCode : String)
      (coinType : Nat) (n : Int) (provider : Option ProviderState),
      ¬ (0 ≤ n ∧ n ≤ SAFE_INTEGER_MAX) →
      TrezorWallet.construct kd publicKey chainCode coinType (some n) provider =
        .error (JsError.inputValidation INVALID_SAFE_INTEGER_MESSAGE) := by
    intro kd publicKey chainCode coinType n provider hbad
    simp [TrezorWallet.construct, safeIntegerValidator, hbad]
  refine ⟨hconstruct, ?_, ?_, ?_⟩
  · intro transport args path n hpath hvalid hn hbad
    simp [signTransaction, buildSignTxRequest, hpath, hvalid, hn,
      safeIntegerValidator, hbad]
  · intro w index hbad
    simp [TrezorWallet.setDefaultAddress, safeIntegerValidator, hbad]
  · intro kd response n provider hbad
    simp [openWallet, openTryBlock,
      hconstruct kd response.publicKey response.chainCode _ n provider hbad,
      JsError.message, INVALID_SAFE_INTEGER_MESSAGE, CANCEL_ACC_EXPORT]

/-- Witness for C5 amended at the concrete invalid count `-1`: direct
construction rejects with the validation error while `open()` resolves
to `undefined`, and `setDefaultAddress(-1)` rejects. -/
theorem validation_error_propagation_witness :
    TrezorWallet.construct pathEchoKeyDerivation "aa" "bb" 60 (some (-1)) none =
      .error (JsError.inputValidation INVALID_SAFE_INTEGER_MESSAGE)
    ∧ exampleWalletCount2.setDefaultAddress (-1) =
        .rejected exampleWalletCount2
          (JsError.inputValidation INVALID_SAFE_INTEGER_MESSAGE)
    ∧ openWallet pathEchoKeyDerivation (.ok ⟨"aa", "bb"⟩) (some (-1)) none =
        .resolvedUndefined false :=
  ⟨validation_error_propagation.1 pathEchoKeyDerivation "aa" "bb" 60 (-1) none
     (by decide),
   validation_error_propagation.2.2.1 exampleWalletCount2 (-1) (by decide),
   validation_error_propagation.2.2.2 pathEchoKeyDerivation ⟨"aa", "bb"⟩ (-1) none
     (by decide)⟩

/-- C1 amended: on a wallet constructed with `addressCount = n ≥ 1`, the
derived array has length `n` and `setDefaultAddress(index)` resolves
true and reassigns the default triple exactly when `0 ≤ index < n`; at
the inclusive boundary `index = n` the range guard passes but the read
of the missing record makes the call reject with a TypeError (state
unchanged); for `n < index` within the safe-integer range it resolves
false without throwing and leaves the state unchanged. -/
theorem setDefaultAddress_range_behavior
    (kd : KeyDerivation) (publicKey chainCode : String) (coinType : Nat)
    (provider : Option ProviderState) (n : Int) (w : TrezorWallet)
    (hn : 1 ≤ n) (hmax : n ≤ SAFE_INTEGER_MAX)
    (hw : TrezorWallet.construct kd publicKey chainCode coinType (some n) provider =
      .ok w) :
    (w.otherAddressesArray.length : Int) = n
    ∧ (∀ index : Int, 0 ≤ index → index < n →
        ∃ record, w.otherAddressesArray.get? index.toNat = some record ∧
          w.setDefaultAddress index = .resolvedTrue { w with
            address := record.address
            publicKey := record.publicKey
            path := record.path })
    ∧ w.setDefaultAddress n =
        .rejected w (JsError.typeError TYPE_ERROR_UNDEFINED_MESSAGE)
    ∧ (∀ index : Int, n < index → index ≤ SAFE_INTEGER_MAX →
        w.setDefaultAddress index = .resolvedFalse w) := by
  obtain ⟨harr, -, -⟩ :=
    construct_inv kd publicKey chainCode coinType provider n w (by omega) hmax hw
  have hlen : w.otherAddressesArray.length = n.toNat := by
    rw [harr, deriveAddressObjects_length, if_neg (by omega)]
  have hlenInt : (w.otherAddressesArray.length : Int) = n := by
    rw [hlen]; omega
  refine ⟨hlenInt, ?_, ?_, ?_⟩
  · intro index h0 hlt
    have hidx : index.toNat < w.otherAddressesArray.length := by
      rw [hlen]; omega
    refine ⟨w.otherAddressesArray.get ⟨index.toNat, hidx⟩, List.get?_eq_get hidx, ?_⟩
    unfold TrezorWallet.setDefaultAddress
    rw [safeIntegerValidator, if_pos ⟨h0, by omega⟩]
    simp only [if_pos (show 0 ≤ index ∧ index ≤ (w.otherAddressesArray.length : Int)
      from ⟨h0, by omega⟩), List.get?_eq_get hidx]
  · unfold TrezorWallet.setDefaultAddress
    rw [safeIntegerValidator, if_pos ⟨by omega, hmax⟩]
    have hnone : w.otherAddressesArray.get? n.toNat = none := by
      rw [List.get?_eq_none, hlen]
    simp only [if_pos (show 0 ≤ n ∧ n ≤ (w.otherAddressesArray.length : Int)
      from ⟨by omega, by omega⟩), hnone]
  · intro index hgt hsafe
    unfold TrezorWallet.setDefaultAddress
    rw [safeIntegerValidator, if_pos ⟨by omega, hsafe⟩]
    simp only
    rw [if_neg (by push_neg; intro _; omega)]

/-- Witness for C1 amended on the concrete two-address wallet: index 1
resolves true with the index-1 triple installed, index 2 (the count)
rejects with the TypeError, index 3 resolves false. -/
theorem setDefaultAddress_range_behavior_witness :
    exampleWalletCount2.setDefaultAddress 2 =
      .rejected exampleWalletCount2 (JsError.typeError TYPE_ERROR_UNDEFINED_MESSAGE)
    ∧ exampleWalletCount2.setDefaultAddress 3 = .resolvedFalse exampleWalletCount2
    ∧ ∃ record, exampleWalletCount2.otherAddressesArray.get? (Int.toNat 1) = some record ∧
        exampleWalletCount2.setDefaultAddress 1 =
          .resolvedTrue { exampleWalletCount2 with
            address := record.address
            publicKey := record.publicKey
            path := record.path } :=
  ⟨(setDefaultAddress_range_behavior pathEchoKeyDerivation "aa" "bb" 60 none 2
      exampleWalletCount2 (by decide) (by decide) rfl).2.2.1,
   (setDefaultAddress_range_behavior pathEchoKeyDerivation "aa" "bb" 60 none 2
      exampleWalletCount2 (by decide) (by decide) rfl).2.2.2 3 (by decide) (by decide),
   (setDefaultAddress_range_behavior pathEchoKeyDerivation "aa" "bb" 60 none 2
      exampleWalletCount2 (by decide) (by decide) rfl).2.1 1 (by decide) (by decide)⟩
